import Mathlib

/-!
Shallow embedding of the Gaussian primitive lifecycle manager of
`src/src/gaussian.cu` (class `GaussianModel`).

Tensors are modelled over exact rationals: a `[N,k]` float tensor becomes a
`List` of `N` rows, each row a `List ℚ`; `[N]`- and `[N,1]`-shaped bookkeeping
tensors become `List ℚ`.  Nondeterministic (`randn`) and device-library
functions whose sources are outside `src/` (`exp`, `log`, `sqrt`-norms,
`build_rotation`) are passed in as explicit parameters, so every definition
stays executable on concrete inputs.
-/

/-- A tensor row: the flattened trailing dimensions of one primitive's entry. -/
abbrev Row : Type := List ℚ

/-- A `[N, k]` tensor: one row per primitive. -/
abbrev Tensor : Type := List Row

/-- `torch.Tensor.index_select(0, idx)`: gather rows at the given indices. -/
def indexSelect {α : Type} (t : List α) (idx : List ℕ) : List α :=
  idx.filterMap (fun i => t.get? i)

/-- `torch.nonzero(mask == true)[:, :1].squeeze(-1)`: indices of true entries,
in increasing order. -/
def trueIdx (mask : List Bool) : List ℕ :=
  (mask.enum.filter (fun p => p.2)).map (fun p => p.1)

/-- `tensor.repeat({n, 1})` (or `{n,1,1}`) along dimension 0: `n` tiled copies
of the whole row list. -/
def tileRows {α : Type} (t : List α) (n : ℕ) : List α :=
  (List.range n).flatMap (fun _ => t)

/-- `tensor.max(1)` values: maximum entry of a row (rows in the source are
nonempty 3-vectors; the `[]` case is unreachable there). -/
def rowMax : Row → ℚ
  | [] => 0
  | a :: t => t.foldl max a

/-- `torch.zeros_like(t)`: same shape as `t`, all entries zero. -/
def zerosLike (t : Tensor) : Tensor :=
  t.map (fun r => r.map (fun _ => (0 : ℚ)))

/-- Replace the element at one position, leaving everything else unchanged
(`xs[p] = v` on a `std::vector`-like container). -/
def modifyIdx {α : Type} (f : α → α) : ℕ → List α → List α
  | _, [] => []
  | 0, a :: t => f a :: t
  | n + 1, a :: t => a :: modifyIdx f n t

/-- One `torch::optim::OptimizerParamGroup` together with its Adam state:
the bound parameter tensors (`params()`, normally exactly one), whether
`params()[0].grad()` is defined, and the `exp_avg` / `exp_avg_sq` state rows. -/
structure OptGroup where
  params : List Tensor
  gradDefined : Bool
  exp_avg : Tensor
  exp_avg_sq : Tensor
deriving DecidableEq

/-- The mutable state of `GaussianModel` that the lifecycle operations touch:
the six optimizable buffers, the three bookkeeping buffers, `_percent_dense`,
and the six optimizer param groups (positions 0..5 = xyz, features_dc,
features_rest, scaling, rotation, opacity). -/
structure GModel where
  xyz : Tensor
  features_dc : Tensor
  features_rest : Tensor
  scaling : Tensor
  rotation : Tensor
  opacity : Tensor
  max_radii2D : List ℚ
  xyz_gradient_accum : List ℚ
  denom : List ℚ
  percent_dense : ℚ
  groups : List OptGroup
deriving DecidableEq

/-- `Get_scaling()`: the activated scale `exp(_scaling)`, with the device
library's `exp` passed in as `expF`. -/
def Get_scaling (expF : ℚ → ℚ) (st : GModel) : Tensor :=
  st.scaling.map (fun r => r.map expF)

/-- Modelled from the spec: `sigmoid`, the opacity activation
(`actual opacity = sigmoid(rawOpacity)`); its C++ source is outside `src/`.
`expF` stands for the device library's `exp`. -/
def sigmoid (expF : ℚ → ℚ) (x : ℚ) : ℚ :=
  1 / (1 + expF (-x))

/-- Modelled from the spec: `inverse_sigmoid`, the inverse of the opacity
activation (`log (y / (1 - y))`); its C++ source is outside `src/`. `logF`
stands for the device library's `log`. -/
def inverse_sigmoid (logF : ℚ → ℚ) (y : ℚ) : ℚ :=
  logF (y / (1 - y))

/-- `Get_opacity()`: the activated opacity `sigmoid(_opacity)`. -/
def Get_opacity (expF : ℚ → ℚ) (st : GModel) : Tensor :=
  st.opacity.map (fun r => r.map (sigmoid expF))

/-- `group.params()[0] = t` at group position `p`. -/
def setGroupParam (gs : List OptGroup) (p : ℕ) (t : Tensor) : List OptGroup :=
  modifyIdx (fun g => { g with params := g.params.set 0 t }) p gs

/-- `prune_optimizer` (gaussian.cu:189-202): gather the buffer at `idx` and
rebind it as group `p`'s parameter.  The commented-out source lines that would
also gather `exp_avg` / `exp_avg_sq` are not executed, so the Adam state is
left untouched. -/
def prune_optimizer (gs : List OptGroup) (idx : List ℕ) (old : Tensor)
    (p : ℕ) : Tensor × List OptGroup :=
  let t := indexSelect old idx
  (t, setGroupParam gs p t)

/-- `GaussianModel::prune_points` (gaussian.cu:204-229).  The six optimizable
buffers are gathered at `nonzero(mask == true)` (the mask-true indices), while
the three bookkeeping buffers are gathered at `nonzero(~mask == true)` (the
mask-false indices), exactly as in the source. -/
def prune_points (st : GModel) (mask : List Bool) : GModel :=
  let idx := trueIdx mask
  let r0 := prune_optimizer st.groups idx st.xyz 0
  let r1 := prune_optimizer r0.2 idx st.features_dc 1
  let r2 := prune_optimizer r1.2 idx st.features_rest 2
  let r3 := prune_optimizer r2.2 idx st.scaling 3
  let r4 := prune_optimizer r3.2 idx st.rotation 4
  let r5 := prune_optimizer r4.2 idx st.opacity 5
  let idxF := trueIdx (mask.map (fun b => !b))
  { st with
    xyz := r0.1, features_dc := r1.1, features_rest := r2.1,
    scaling := r3.1, rotation := r4.1, opacity := r5.1,
    groups := r5.2,
    xyz_gradient_accum := indexSelect st.xyz_gradient_accum idxF,
    denom := indexSelect st.denom idxF,
    max_radii2D := indexSelect st.max_radii2D idxF }

/-- `cat_tensors_to_optimizer` (gaussian.cu:231-253): append the extension
rows to the buffer and rebind it as group `p`'s parameter.  The commented-out
source lines that would zero-extend `exp_avg` / `exp_avg_sq` are not executed,
so the Adam state is left untouched. -/
def cat_tensors_to_optimizer (gs : List OptGroup) (ext : Tensor) (old : Tensor)
    (p : ℕ) : Tensor × List OptGroup :=
  let t := old ++ ext
  (t, setGroupParam gs p t)

/-- `GaussianModel::densification_postfix` (gaussian.cu:255-290): validate the
six groups, append the new rows to each optimizable buffer, then reset the
three bookkeeping buffers to zeros of the new length. -/
def densification_postfix (st : GModel) (nxyz ndc nrest nscal nrot nop : Tensor) :
    Except String GModel :=
  if st.groups.length ≠ 6 then Except.error "optimizer param groups size not 6"
  else if st.groups.any (fun g => g.params.length ≠ 1) then
    Except.error "too many params"
  else
    let r0 := cat_tensors_to_optimizer st.groups nxyz st.xyz 0
    let r1 := cat_tensors_to_optimizer r0.2 ndc st.features_dc 1
    let r2 := cat_tensors_to_optimizer r1.2 nrest st.features_rest 2
    let r3 := cat_tensors_to_optimizer r2.2 nscal st.scaling 3
    let r4 := cat_tensors_to_optimizer r3.2 nrot st.rotation 4
    let r5 := cat_tensors_to_optimizer r4.2 nop st.opacity 5
    Except.ok { st with
      xyz := r0.1, features_dc := r1.1, features_rest := r2.1,
      scaling := r3.1, rotation := r4.1, opacity := r5.1,
      groups := r5.2,
      xyz_gradient_accum := List.replicate r0.1.length 0,
      denom := List.replicate r0.1.length 0,
      max_radii2D := List.replicate r0.1.length 0 }

/-- The clone selection mask of `GaussianModel::densify_and_clone`
(gaussian.cu:342-346): `torch::where(grads.norm() >= grad_threshold, ones, zeros)`
compares the Frobenius norm of the WHOLE `grads` tensor (a single scalar,
`sqrtF` of the sum of all squared entries) against the threshold and broadcasts
the single boolean over all rows; it is then `logical_and`-ed with the
per-primitive small-scale condition `max(Get_scaling(), dim 1) <= percent_dense
* scene_extent`.  `grads` is the `[M,1]` gradient tensor, given squeezed. -/
def cloneSelectedMask (sqrtF expF : ℚ → ℚ) (st : GModel) (grads : List ℚ)
    (grad_threshold scene_extent : ℚ) : List Bool :=
  let globalPass : Bool := decide (grad_threshold ≤ sqrtF ((grads.map (fun g => g * g)).sum))
  List.zipWith
    (fun _g srow => globalPass && decide (rowMax (srow.map expF) ≤ st.percent_dense * scene_extent))
    grads st.scaling

/-- The clone selection the spec describes (for contrast with
`cloneSelectedMask`): a primitive is selected when ITS OWN positional gradient
norm exceeds the threshold (each `grads` row holds one accumulated norm, so the
row norm is `sqrtF` of its square) and its largest activated scale axis is at
most `percent_dense * scene_extent`. -/
def cloneSelectedMaskSpec (sqrtF expF : ℚ → ℚ) (st : GModel) (grads : List ℚ)
    (grad_threshold scene_extent : ℚ) : List Bool :=
  List.zipWith
    (fun g srow => decide (grad_threshold < sqrtF (g * g)) &&
      decide (rowMax (srow.map expF) ≤ st.percent_dense * scene_extent))
    grads st.scaling

/-- `GaussianModel::densify_and_clone` (gaussian.cu:339-375): gather every
optimizable buffer at the selected indices and append the copies via
` densification_postfix`. -/
def densify_and_clone (sqrtF expF : ℚ → ℚ) (st : GModel) (grads : List ℚ)
    (grad_threshold scene_extent : ℚ) : Except String GModel :=
  let idx := trueIdx (cloneSelectedMask sqrtF expF st grads grad_threshold scene_extent)
  densification_postfix st
    (indexSelect st.xyz idx)
    (indexSelect st.features_dc idx)
    (indexSelect st.features_rest idx)
    (indexSelect st.scaling idx)
    (indexSelect st.rotation idx)
    (indexSelect st.opacity idx)

/-- `padded_grad` of `GaussianModel::densify_and_split` (gaussian.cu:297-300):
a zeros vector of length `n_init_points` whose first `grads.length` entries
are overwritten by `grads`. -/
def paddedGrad (grads : List ℚ) (n : ℕ) : List ℚ :=
  (List.range n).map (fun i => grads.getD i 0)

/-- The split selection mask of `GaussianModel::densify_and_split`
(gaussian.cu:301-302): `padded_grad >= grad_threshold` and the large-scale
condition `max(Get_scaling(), dim 1) > percent_dense * scene_extent`. -/
def splitSelectedMask (expF : ℚ → ℚ) (st : GModel) (grads : List ℚ)
    (grad_threshold scene_extent : ℚ) : List Bool :=
  List.zipWith
    (fun g srow => decide (grad_threshold ≤ g) &&
      decide (st.percent_dense * scene_extent < rowMax (srow.map expF)))
    (paddedGrad grads st.xyz.length) st.scaling

/-- `GaussianModel::densify_and_split` (gaussian.cu:292-337).  `buildRot q`
stands for applying the `build_rotation` matrix of quaternion row `q` (source
outside `src/`; modelled from the spec: "rotating by the original
orientation"); `noise` is the `torch::randn` draw, one row per new primitive.
Children sample positions `buildRot q (noise * std) + parent`, get scale
`log(Get_scaling()/(0.8*n))`, and copy rotation, colors, opacity; afterwards
`prune_points` is called on the selection mask extended with `n * #selected`
falses. -/
def densify_and_split (expF logF : ℚ → ℚ) (buildRot : Row → Row → Row)
    (noise : Tensor) (st : GModel) (grads : List ℚ)
    (grad_threshold scene_extent : ℚ) (n : ℕ) : Except String GModel :=
  let mask := splitSelectedMask expF st grads grad_threshold scene_extent
  let idx := trueIdx mask
  let stds := tileRows (indexSelect (Get_scaling expF st) idx) n
  let samples := List.zipWith (fun nr sr => List.zipWith (fun a b => a * b) nr sr) noise stds
  let rotsSel := tileRows (indexSelect st.rotation idx) n
  let new_xyz := List.zipWith (fun p x => List.zipWith (fun a b => a + b) (buildRot p.1 p.2) x)
    (rotsSel.zip samples) (tileRows (indexSelect st.xyz idx) n)
  let new_scaling := (tileRows (indexSelect (Get_scaling expF st) idx) n).map
    (fun r => r.map (fun v => logF (v / (4 / 5 * (n : ℚ)))))
  let new_features_dc := tileRows (indexSelect st.features_dc idx) n
  let new_features_rest := tileRows (indexSelect st.features_rest idx) n
  let new_opacity := tileRows (indexSelect st.opacity idx) n
  match densification_postfix st new_xyz new_features_dc new_features_rest
      new_scaling rotsSel new_opacity with
  | Except.error e => Except.error e
  | Except.ok st1 =>
    let pruneFilter := mask ++ List.replicate (n * (trueIdx mask).length) false
    Except.ok (prune_points st1 pruneFilter)

/-- A float value as far as the NaN bookkeeping of `Densify_and_prune` is
concerned: finite rationals plus the IEEE specials produced by division. -/
inductive FVal where
  | nan : FVal
  | pinf : FVal
  | ninf : FVal
  | fin : ℚ → FVal
deriving DecidableEq

/-- IEEE float division restricted to the cases the code can hit:
`0/0 = NaN`, `x/0 = ±inf` for `x ≠ 0`, exact quotient otherwise. -/
def fdiv (a b : ℚ) : FVal :=
  if b = 0 then (if a = 0 then FVal.nan else if 0 < a then FVal.pinf else FVal.ninf)
  else FVal.fin (a / b)

/-- `grads.index_put_({grads.isnan()}, 0.0)` on one entry. -/
def nanToZero (v : FVal) : FVal :=
  if v = FVal.nan then FVal.fin 0 else v

/-- Lines 378-379 of `GaussianModel::Densify_and_prune`: the per-primitive
mean gradient `_xyz_gradient_accum / _denom` with every NaN entry replaced by
zero before it is used for clone/split selection. -/
def computeGrads (accum den : List ℚ) : List FVal :=
  ((accum.zip den).map (fun p => fdiv p.1 p.2)).map nanToZero

/-- Collapse a NaN-free gradient entry back to a rational (model device for
feeding `computeGrads`'s output to the clone/split selections; on the states
the training loop produces, `denom = 0` forces `accum = 0`, so every entry is
finite). -/
def FVal.toQ : FVal → ℚ
  | FVal.fin q => q
  | _ => 0

/-- `GaussianModel::Densify_and_prune` (gaussian.cu:377-391): compute the
NaN-cleaned mean gradients, clone, split (default `N = 2`, modelled from the
spec's `N_split=2` since the header holding the default is outside `src/`),
then prune low-opacity and (when `max_screen_size > 0`) oversized primitives. -/
def Densify_and_prune (sqrtF expF logF : ℚ → ℚ) (buildRot : Row → Row → Row)
    (noise : Tensor) (st : GModel)
    (max_grad min_opacity extent max_screen_size : ℚ) : Except String GModel :=
  let grads := (computeGrads st.xyz_gradient_accum st.denom).map FVal.toQ
  match densify_and_clone sqrtF expF st grads max_grad extent with
  | Except.error e => Except.error e
  | Except.ok st1 =>
    match densify_and_split expF logF buildRot noise st1 grads max_grad extent 2 with
    | Except.error e => Except.error e
    | Except.ok st2 =>
      let pm := st2.opacity.map (fun r => decide (sigmoid expF (r.headD 0) < min_opacity))
      let pmFinal := if 0 < max_screen_size then
          List.zipWith (fun a b => a || b) pm
            (List.zipWith
              (fun rad srow => decide (max_screen_size < rad) ||
                decide (1 / 10 * extent < rowMax (srow.map expF)))
              st2.max_radii2D st2.scaling)
        else pm
      Except.ok (prune_points st2 pmFinal)

/-- Indexed map with an explicit starting index (used to model
`index_put_({mask}, gathered + delta)`, which rewrites exactly the mask-true
positions and leaves the rest untouched). -/
def mapIdxFrom (f : ℕ → ℚ → ℚ) : ℕ → List ℚ → List ℚ
  | _, [] => []
  | i, a :: t => f i a :: mapIdxFrom f (i + 1) t

/-- `GaussianModel::Add_densification_stats` (gaussian.cu:393-396): at every
`update_filter`-true index, `_xyz_gradient_accum` grows by the 2-norm of the
first two components of that primitive's view-space gradient row and `_denom`
grows by one; all other indices and all other fields are untouched.  `sqrtF`
stands for the device library's square root (`norm(2, -1, true)` of the
two-column slice is `sqrtF` of the sum of the two squares); `vgrad` is
`viewspace_point_tensor.grad()`. -/
def Add_densification_stats (sqrtF : ℚ → ℚ) (st : GModel) (vgrad : Tensor)
    (updFilter : List Bool) : GModel :=
  { st with
    xyz_gradient_accum := mapIdxFrom
      (fun i a => if updFilter.getD i false
        then a + sqrtF ((((vgrad.getD i []).take 2).map (fun v => v * v)).sum)
        else a) 0 st.xyz_gradient_accum,
    denom := mapIdxFrom
      (fun i d => if updFilter.getD i false then d + 1 else d) 0 st.denom }

/-- `GaussianModel::Save_as_ply` (gaussian.cu:147-149): unconditionally throws
`std::runtime_error("Not implemented")`; an `Except.ok` result would carry the
post-call state, so the error constructor also records that no state change
ever happens. -/
def Save_as_ply (_st : GModel) (_filename : String) : Except String GModel :=
  Except.error "Not implemented"

/-- The validation loop of `GaussianModel::Reset_opacity` (gaussian.cu:156-167):
walk the groups in order and throw for the first one that does not hold exactly
one parameter tensor, or whose parameter has no defined gradient. -/
def findResetError : List OptGroup → Option String
  | [] => none
  | g :: gs =>
    if g.params.length ≠ 1 then some "too many params"
    else if !g.gradDefined then some "param grad not defined"
    else findResetError gs

/-- The success branch of `GaussianModel::Reset_opacity` (gaussian.cu:169-183):
build `new_opacity = inverse_sigmoid(ones_like(Get_opacity()) * 0.01)`, zero
the opacity group's `exp_avg` / `exp_avg_sq` to `zeros_like(new_opacity)`,
rebind group 5's parameter, and replace `_opacity`. -/
def resetOk (expF logF : ℚ → ℚ) (st : GModel) : GModel :=
  let new_opacity := (Get_opacity expF st).map
    (fun r => r.map (fun _v => inverse_sigmoid logF (1 * (1 / 100))))
  { st with
    opacity := new_opacity,
    groups := modifyIdx (fun g => { g with
      exp_avg := zerosLike new_opacity,
      exp_avg_sq := zerosLike new_opacity,
      params := g.params.set 0 new_opacity }) 5 st.groups }

/-- `GaussianModel::Reset_opacity` (gaussian.cu:152-187): the validation loop
followed, on success, by the state update `resetOk`. -/
def Reset_opacity (expF logF : ℚ → ℚ) (st : GModel) : Except String GModel :=
  match findResetError st.groups with
  | some msg => Except.error msg
  | none => Except.ok (resetOk expF logF st)

/-! ### Concrete instances used by the counterexample and witness theorems

The transcendental device functions are instantiated by rational stand-ins
that agree with the real `exp` / `log` / `sqrt` at every point the concrete
computations evaluate them (`exp 0 = 1`, `sqrt 4 = 2`, `sqrt 25 = 5`,
`sqrt 0 = 0`, and a pair of tag points for `exp`/`log` round trips). -/

/-- Rational stand-in for `exp`, correct at the evaluated points. -/
def expQ : ℚ → ℚ := fun q =>
  if q = 0 then 1 else if q = -9 then 99 else if q = 7 then 5 / 8 else 0

/-- Rational stand-in for `log`, correct at the evaluated points
(`logQ (1/99) = 9` and `logQ (5/8) = 7` are tag values paired with `expQ`). -/
def logQ : ℚ → ℚ := fun q =>
  if q = 1 / 99 then 9 else if q = 5 / 8 then 7 else 0

/-- Rational stand-in for `sqrt`, correct at the evaluated points. -/
def sqrtQ : ℚ → ℚ := fun q =>
  if q = 4 then 2 else if q = 25 then 5 else 0

/-- `build_rotation` of the identity quaternion acts as the identity map. -/
def buildRotId : Row → Row → Row := fun _q v => v

/-- An optimizer group bound to one parameter tensor, with a defined gradient
and Adam state shaped like the parameter. -/
def mkGroup (t : Tensor) : OptGroup :=
  { params := [t], gradDefined := true, exp_avg := zerosLike t, exp_avg_sq := zerosLike t }

/-- A consistent three-primitive model state. -/
def stA : GModel :=
  { xyz := [[1,0,0],[2,0,0],[3,0,0]], features_dc := [[1],[2],[3]],
    features_rest := [[1],[2],[3]], scaling := [[0,0,0],[0,0,0],[0,0,0]],
    rotation := [[1,0,0,0],[1,0,0,0],[1,0,0,0]], opacity := [[1],[2],[3]],
    max_radii2D := [4,5,6], xyz_gradient_accum := [10,20,30], denom := [1,2,3],
    percent_dense := 1,
    groups := [mkGroup [[1,0,0],[2,0,0],[3,0,0]], mkGroup [[1],[2],[3]],
      mkGroup [[1],[2],[3]], mkGroup [[0,0,0],[0,0,0],[0,0,0]],
      mkGroup [[1,0,0,0],[1,0,0,0],[1,0,0,0]], mkGroup [[1],[2],[3]]] }

/-- A consistent two-primitive model state (activated scales all `1`). -/
def stB : GModel :=
  { xyz := [[1,0,0],[2,0,0]], features_dc := [[1],[2]],
    features_rest := [[1],[2]], scaling := [[0,0,0],[0,0,0]],
    rotation := [[1,0,0,0],[1,0,0,0]], opacity := [[1],[2]],
    max_radii2D := [5,6], xyz_gradient_accum := [10,20], denom := [1,2],
    percent_dense := 1,
    groups := [mkGroup [[1,0,0],[2,0,0]], mkGroup [[1],[2]], mkGroup [[1],[2]],
      mkGroup [[0,0,0],[0,0,0]], mkGroup [[1,0,0,0],[1,0,0,0]], mkGroup [[1],[2]]] }

/-- A single-primitive model state: position `(1,2,3)`, activated scale
`(1,1,1)` (log-scale zero), identity rotation. -/
def stC : GModel :=
  { xyz := [[1,2,3]], features_dc := [[9]], features_rest := [[8]],
    scaling := [[0,0,0]], rotation := [[1,0,0,0]], opacity := [[5]],
    max_radii2D := [0], xyz_gradient_accum := [0], denom := [0],
    percent_dense := 1/2,
    groups := [mkGroup [[1,2,3]], mkGroup [[9]], mkGroup [[8]],
      mkGroup [[0,0,0]], mkGroup [[1,0,0,0]], mkGroup [[5]]] }

/-- A model state whose rotation group's parameter has no defined gradient. -/
def stBad : GModel :=
  { stA with groups := [mkGroup [[1,0,0],[2,0,0],[3,0,0]], mkGroup [[1],[2],[3]],
      mkGroup [[1],[2],[3]], mkGroup [[0,0,0],[0,0,0],[0,0,0]],
      { mkGroup [[1,0,0,0],[1,0,0,0],[1,0,0,0]] with gradDefined := false },
      mkGroup [[1],[2],[3]]] }

/-- Project the state out of a successful mutation, with a default for the
error case (used only to state concrete evaluations). -/
def okD (e : Except String GModel) (d : GModel) : GModel :=
  match e with
  | Except.ok s => s
  | Except.error _ => d

/-! ### Helper lemmas -/

theorem get?_zip_some {α β : Type} {l1 : List α} {l2 : List β} {i : ℕ} {a : α} {b : β}
    (h1 : l1.get? i = some a) (h2 : l2.get? i = some b) :
    (l1.zip l2).get? i = some (a, b) := by
  induction l1 generalizing l2 i with
  | nil => simp at h1
  | cons x t ih =>
    cases l2 with
    | nil => simp at h2
    | cons y s =>
      cases i with
      | zero =>
        simp only [List.get?] at h1 h2
        simp [List.zip_cons_cons, h1.symm, h2.symm]
        exact ⟨(Option.some.inj h1).symm ▸ rfl, (Option.some.inj h2).symm ▸ rfl⟩
      | succ j =>
        simpa [List.zip_cons_cons] using ih (by simpa using h1) (by simpa using h2)

theorem get?_zipWith_some {α β γ : Type} {f : α → β → γ} {l1 : List α} {l2 : List β}
    {i : ℕ} {c : γ} (h : (List.zipWith f l1 l2).get? i = some c) :
    ∃ a b, l1.get? i = some a ∧ l2.get? i = some b ∧ c = f a b := by
  induction l1 generalizing l2 i with
  | nil => simp at h
  | cons x t ih =>
    cases l2 with
    | nil => simp at h
    | cons y s =>
      cases i with
      | zero =>
        refine ⟨x, y, rfl, rfl, ?_⟩
        simpa [List.zipWith] using h.symm
      | succ j =>
        obtain ⟨a, b, ha, hb, hc⟩ := ih (by simpa [List.zipWith] using h)
        exact ⟨a, b, ha, hb, hc⟩

theorem mapIdxFrom_get? (f : ℕ → ℚ → ℚ) (k : ℕ) (l : List ℚ) (i : ℕ) :
    (mapIdxFrom f k l).get? i = (l.get? i).map (f (k + i)) := by
  induction l generalizing k i with
  | nil => simp [mapIdxFrom]
  | cons a t ih =>
    cases i with
    | zero => simp [mapIdxFrom]
    | succ j =>
      have harith : k + (j + 1) = (k + 1) + j := by omega
      rw [harith]
      simpa [mapIdxFrom] using ih (k + 1) j

theorem modifyIdx_get?_self {α : Type} (f : α → α) (n : ℕ) (l : List α) :
    (modifyIdx f n l).get? n = (l.get? n).map f := by
  induction l generalizing n with
  | nil => simp [modifyIdx]
  | cons a t ih =>
    cases n with
    | zero => simp [modifyIdx]
    | succ m => simpa [modifyIdx] using ih m

theorem findResetError_eq_none {gs : List OptGroup}
    (h : ∀ g ∈ gs, g.params.length = 1 ∧ g.gradDefined = true) :
    findResetError gs = none := by
  induction gs with
  | nil => rfl
  | cons g t ih =>
    have hg := h g (List.mem_cons_self g t)
    simp [findResetError, hg.1, hg.2,
      ih (fun x hx => h x (List.mem_cons_of_mem g hx))]

theorem findResetError_of_invalid {gs : List OptGroup}
    (h : ∃ g ∈ gs, g.params.length ≠ 1 ∨ g.gradDefined = false) :
    ∃ msg, findResetError gs = some msg := by
  induction gs with
  | nil => simp at h
  | cons g t ih =>
    by_cases h1 : g.params.length = 1
    · by_cases h2 : g.gradDefined
      · obtain ⟨x, hx, hbad⟩ := h
        rcases List.mem_cons.1 hx with hhead | hxt
        · exfalso
          rcases hbad with hb | hb
          · exact hb (hhead ▸ h1)
          · rw [hhead, h2] at hb
            cases hb
        · obtain ⟨msg, hm⟩ := ih ⟨x, hxt, hbad⟩
          exact ⟨msg, by simp [findResetError, h1, h2, hm]⟩
      · exact ⟨"param grad not defined", by simp [findResetError, h1, h2]⟩
    · exact ⟨"too many params", by simp [findResetError, h1]⟩

/-! ### Claim theorems -/

/-- C1: refuted at a concrete input.  The claim says every optimizable buffer,
every bookkeeping buffer, and every optimizer group's momentum/variance buffer
share one row count after each structural mutation.  In the code,
`prune_points` gathers the six optimizable buffers at the mask-TRUE indices but
the three bookkeeping buffers at the mask-FALSE indices, so a mask with two
trues out of three leaves `xyz` with 2 rows and `denom` with 1; and
`cat_tensors_to_optimizer` never resizes `exp_avg`/`exp_avg_sq` (that code is
commented out in the source), so after a clone that appends two rows the
buffers have 4 rows while the position group's momentum still has 2. -/
theorem prune_and_clone_row_count_drift :
    (prune_points stA [true, true, false]).xyz.length = 2 ∧
    (prune_points stA [true, true, false]).denom.length = 1 ∧
    (okD (densify_and_clone sqrtQ expQ stB [0, 2] 1 2) stB).xyz.length = 4 ∧
    ((okD (densify_and_clone sqrtQ expQ stB [0, 2] 1 2) stB).groups.headD
      (mkGroup [])).exp_avg.length = 2 := by
  refine ⟨?_, ?_, ?_, ?_⟩ <;>
    norm_num [okD, densify_and_clone, densification_postfix, cat_tensors_to_optimizer,
      cloneSelectedMask, prune_points, prune_optimizer, sqrtQ, expQ, stA, stB, mkGroup,
      zerosLike, rowMax, trueIdx, indexSelect, setGroupParam, modifyIdx,
      List.zipWith, List.enum, List.filterMap]

/-- C2: refuted at a concrete input.  The claim says `prune_points(mask)`
leaves every buffer equal to the old buffer gathered at the mask-FALSE
indices.  On a two-primitive model with mask `[true, false]`, the code keeps
row 0 of `xyz` (the mask-TRUE row, i.e. the primitive that was supposed to be
removed) while the bookkeeping buffer `gradAccum` keeps row 1; the six
optimizable buffers therefore differ from the mask-FALSE gather the claim
demands. -/
theorem prune_points_keeps_true_rows :
    (prune_points stB [true, false]).xyz = [[1, 0, 0]] ∧
    (prune_points stB [true, false]).xyz_gradient_accum = [20] ∧
    (prune_points stB [true, false]).xyz ≠
      indexSelect stB.xyz (trueIdx ([true, false].map (fun b => !b))) := by
  refine ⟨?_, ?_, ?_⟩ <;>
    norm_num [prune_points, prune_optimizer, trueIdx, indexSelect, setGroupParam, stB,
      mkGroup, modifyIdx, zerosLike, List.enum, List.filterMap]

/-- C3: refuted at a concrete input.  The claim says clone selection compares
each primitive's OWN gradient norm with the threshold.  The code's
`grads.norm()` is the Frobenius norm of the whole tensor: with per-primitive
gradients `[0, 2]` and threshold `1`, the global norm `sqrt 4 = 2` passes, so
BOTH primitives are selected (mask `[true, true]`) and both rows are appended
(4 rows total), while the spec's per-primitive selection is `[false, true]`. -/
theorem densify_and_clone_global_norm_divergence :
    cloneSelectedMask sqrtQ expQ stB [0, 2] 1 2 = [true, true] ∧
    cloneSelectedMaskSpec sqrtQ expQ stB [0, 2] 1 2 = [false, true] ∧
    cloneSelectedMask sqrtQ expQ stB [0, 2] 1 2 ≠
      cloneSelectedMaskSpec sqrtQ expQ stB [0, 2] 1 2 ∧
    (okD (densify_and_clone sqrtQ expQ stB [0, 2] 1 2) stB).xyz.length = 4 := by
  refine ⟨?_, ?_, ?_, ?_⟩ <;>
    norm_num [okD, densify_and_clone, densification_postfix, cat_tensors_to_optimizer,
      cloneSelectedMask, cloneSelectedMaskSpec, sqrtQ, expQ, stB, mkGroup, zerosLike,
      rowMax, trueIdx, indexSelect, setGroupParam, modifyIdx, List.zipWith, List.enum,
      List.filterMap]

/-- C4: refuted at a concrete input.  A single primitive at `(1,2,3)` with
activated scale `(1,1,1)`, identity rotation and gradient `1 ≥ threshold 1` is
selected for splitting (`N = 2`).  The two children are built and appended,
but the final `prune_points(prune_filter)` keeps exactly the mask-TRUE rows of
the optimizable buffers — i.e. the ORIGINAL parent — and discards both
children, so the final set is `[[1,2,3]]`: the original is present, not
absent as the claim requires. -/
theorem densify_and_split_parent_retained :
    splitSelectedMask expQ stC [1] 1 1 = [true] ∧
    stC.xyz = [[1, 2, 3]] ∧
    (okD (densify_and_split expQ logQ buildRotId [[0, 0, 0], [0, 0, 0]] stC [1] 1 1 2)
      stC).xyz = [[1, 2, 3]] := by
  refine ⟨?_, rfl, ?_⟩ <;>
    norm_num [okD, densify_and_split, densification_postfix, cat_tensors_to_optimizer,
      splitSelectedMask, paddedGrad, Get_scaling, tileRows, prune_points, prune_optimizer,
      expQ, logQ, buildRotId, stC, mkGroup, zerosLike, rowMax, trueIdx, indexSelect,
      setGroupParam, modifyIdx, List.zipWith, List.enum, List.filterMap, List.range,
      List.range.loop]

/-- C5: confirmed.  The mean-gradient vector computed at the start of
`Densify_and_prune` (`gradAccum / denom` with NaN entries replaced by zero,
`computeGrads`) contains no NaN entry; an entry whose denominator (and hence,
on the states the accumulator maintains, whose accumulator) is zero becomes
exactly `0` before the vector is used for clone/split selection, and an entry
with nonzero denominator is the exact quotient. -/
theorem computeGrads_replaces_nan (accum den : List ℚ) (i : ℕ) (a d : ℚ)
    (ha : accum.get? i = some a) (hd : den.get? i = some d) :
    (∀ v ∈ computeGrads accum den, v ≠ FVal.nan) ∧
    (d = 0 → a = 0 → (computeGrads accum den).get? i = some (FVal.fin 0)) ∧
    (d ≠ 0 → (computeGrads accum den).get? i = some (FVal.fin (a / d))) := by
  refine ⟨?_, ?_, ?_⟩
  · intro v hv
    simp only [computeGrads, List.mem_map] at hv
    obtain ⟨u, _, rfl⟩ := hv
    unfold nanToZero
    by_cases h : u = FVal.nan <;> simp [h]
  · intro hd0 ha0
    have hz : (accum.zip den).get? i = some (a, d) := get?_zip_some ha hd
    have h1 : (computeGrads accum den).get? i = some (nanToZero (fdiv a d)) := by
      unfold computeGrads
      rw [List.get?_map, List.get?_map, hz]
      rfl
    rw [h1, hd0, ha0]
    rfl
  · intro hd0
    have hz : (accum.zip den).get? i = some (a, d) := get?_zip_some ha hd
    have h1 : (computeGrads accum den).get? i = some (nanToZero (fdiv a d)) := by
      unfold computeGrads
      rw [List.get?_map, List.get?_map, hz]
      rfl
    rw [h1]
    unfold fdiv nanToZero
    rw [if_neg hd0]
    simp

/-- Witness for C5 at a concrete input: entry 0 has `0/0` and becomes `0`;
entry 1 is the exact quotient `3/2`. -/
theorem computeGrads_replaces_nan_witness :
    (computeGrads [0, 3] [0, 2]).get? 0 = some (FVal.fin 0) ∧
    (computeGrads [0, 3] [0, 2]).get? 1 = some (FVal.fin (3 / 2)) :=
  ⟨(computeGrads_replaces_nan [0, 3] [0, 2] 0 0 0 rfl rfl).2.1 rfl rfl,
   (computeGrads_replaces_nan [0, 3] [0, 2] 1 3 2 rfl rfl).2.2 (by norm_num)⟩

/-- C6: confirmed.  When `Reset_opacity` succeeds (six valid groups) and the
device `exp`/`log` satisfy the real-exponential law at the one point evaluated
(`exp (-log (1/99)) = 99`, which holds for the real functions since
`0.01/(1-0.01) = 1/99`), every entry of the new opacity buffer activates to
exactly `1/100`, and the opacity group's `exp_avg` and `exp_avg_sq` are the
all-zero tensor of the same shape as the new opacity buffer. -/
theorem Reset_opacity_correct (expF logF : ℚ → ℚ) (st : GModel)
    (h6 : st.groups.length = 6)
    (hv : ∀ g ∈ st.groups, g.params.length = 1 ∧ g.gradDefined = true)
    (hlaw : expF (-(logF (1 / 99))) = 99) :
    ∃ st', Reset_opacity expF logF st = Except.ok st' ∧
      st'.opacity.length = st.opacity.length ∧
      (∀ r ∈ st'.opacity, ∀ o ∈ r, sigmoid expF o = 1 / 100) ∧
      (st'.groups.getD 5 (mkGroup [])).exp_avg = zerosLike st'.opacity ∧
      (st'.groups.getD 5 (mkGroup [])).exp_avg_sq = zerosLike st'.opacity := by
  have hnone : findResetError st.groups = none := findResetError_eq_none hv
  have h5 : 5 < st.groups.length := by omega
  refine ⟨resetOk expF logF st, ?_, ?_, ?_, ?_, ?_⟩
  · unfold Reset_opacity
    rw [hnone]
  · simp [resetOk, Get_opacity]
  · intro r hr o ho
    have hc : ∀ z ∈ (Get_opacity expF st).map
        (fun row => row.map (fun _v => inverse_sigmoid logF (1 * (1 / 100)))),
        ∀ u ∈ z, u = inverse_sigmoid logF (1 * (1 / 100)) := by
      intro z hz u hu
      simp only [List.mem_map] at hz
      obtain ⟨z0, _, rfl⟩ := hz
      simp only [List.mem_map] at hu
      obtain ⟨u0, _, rfl⟩ := hu
      rfl
    have ho' : o = inverse_sigmoid logF (1 * (1 / 100)) :=
      hc r (by simpa [resetOk] using hr) o ho
    rw [ho']
    have harg : ((1 : ℚ) * (1 / 100)) / (1 - 1 * (1 / 100)) = 1 / 99 := by norm_num
    rw [inverse_sigmoid, harg, sigmoid, hlaw]
    norm_num
  · simp only [resetOk]
    rw [List.getD_eq_getD_get?, modifyIdx_get?_self, List.get?_eq_get h5]
    rfl
  · simp only [resetOk]
    rw [List.getD_eq_getD_get?, modifyIdx_get?_self, List.get?_eq_get h5]
    rfl

/-- Witness for C6 at a concrete input: the three-primitive model `stA` with
the concrete stand-ins `expQ`/`logQ` (which satisfy the needed law
`expQ (-(logQ (1/99))) = expQ (-9) = 99`). -/
theorem Reset_opacity_correct_witness :
    ∃ st', Reset_opacity expQ logQ stA = Except.ok st' ∧
      st'.opacity.length = stA.opacity.length ∧
      (∀ r ∈ st'.opacity, ∀ o ∈ r, sigmoid expQ o = 1 / 100) ∧
      (st'.groups.getD 5 (mkGroup [])).exp_avg = zerosLike st'.opacity ∧
      (st'.groups.getD 5 (mkGroup [])).exp_avg_sq = zerosLike st'.opacity :=
  Reset_opacity_correct expQ logQ stA (by decide)
    (by decide) (by norm_num [expQ, logQ])

/-- C7: confirmed.  `Add_densification_stats` leaves every filter-false index
of `gradAccum` and `denom` unchanged; at every filter-true index it adds the
2-norm of the first two components of that primitive's view-space gradient row
to `gradAccum` and exactly `1` to `denom`; and it modifies no other field of
the model. -/
theorem Add_densification_stats_effect (sqrtF : ℚ → ℚ) (st : GModel)
    (vgrad : Tensor) (updF : List Bool) (i : ℕ) (a d x y : ℚ) (r : Row)
    (ha : st.xyz_gradient_accum.get? i = some a) (hd : st.denom.get? i = some d) :
    ((Add_densification_stats sqrtF st vgrad updF).xyz = st.xyz ∧
      (Add_densification_stats sqrtF st vgrad updF).features_dc = st.features_dc ∧
      (Add_densification_stats sqrtF st vgrad updF).features_rest = st.features_rest ∧
      (Add_densification_stats sqrtF st vgrad updF).scaling = st.scaling ∧
      (Add_densification_stats sqrtF st vgrad updF).rotation = st.rotation ∧
      (Add_densification_stats sqrtF st vgrad updF).opacity = st.opacity ∧
      (Add_densification_stats sqrtF st vgrad updF).max_radii2D = st.max_radii2D ∧
      (Add_densification_stats sqrtF st vgrad updF).groups = st.groups) ∧
    (updF.getD i false = false →
      (Add_densification_stats sqrtF st vgrad updF).xyz_gradient_accum.get? i = some a ∧
      (Add_densification_stats sqrtF st vgrad updF).denom.get? i = some d) ∧
    (updF.getD i false = true → vgrad.getD i [] = r → r.take 2 = [x, y] →
      (Add_densification_stats sqrtF st vgrad updF).xyz_gradient_accum.get? i =
        some (a + sqrtF (x * x + y * y)) ∧
      (Add_densification_stats sqrtF st vgrad updF).denom.get? i = some (d + 1)) := by
  refine ⟨⟨rfl, rfl, rfl, rfl, rfl, rfl, rfl, rfl⟩, ?_, ?_⟩
  · intro hf
    constructor
    · simp only [Add_densification_stats]
      rw [mapIdxFrom_get?, ha, Option.map_some', Nat.zero_add, hf]
      rfl
    · simp only [Add_densification_stats]
      rw [mapIdxFrom_get?, hd, Option.map_some', Nat.zero_add, hf]
      rfl
  · intro hf hrow htake
    constructor
    · simp only [Add_densification_stats]
      rw [mapIdxFrom_get?, ha, Option.map_some', Nat.zero_add, hf, hrow, htake]
      norm_num
    · simp only [Add_densification_stats]
      rw [mapIdxFrom_get?, hd, Option.map_some', Nat.zero_add, hf]
      rfl

/-- Witness for C7 at a concrete input: two primitives, filter `[true, false]`;
index 0 gains `sqrt (3² + 4²)` in `gradAccum` and `1` in `denom`, index 1 is
untouched. -/
theorem Add_densification_stats_effect_witness :
    (Add_densification_stats sqrtQ stB [[3, 4, 7], [9, 9, 9]]
      [true, false]).xyz_gradient_accum.get? 0 = some (10 + sqrtQ (3 * 3 + 4 * 4)) ∧
    (Add_densification_stats sqrtQ stB [[3, 4, 7], [9, 9, 9]]
      [true, false]).denom.get? 0 = some (1 + 1) ∧
    (Add_densification_stats sqrtQ stB [[3, 4, 7], [9, 9, 9]]
      [true, false]).xyz_gradient_accum.get? 1 = some 20 ∧
    (Add_densification_stats sqrtQ stB [[3, 4, 7], [9, 9, 9]]
      [true, false]).denom.get? 1 = some 2 := by
  refine ⟨?_, ?_, ?_, ?_⟩
  · exact ((Add_densification_stats_effect sqrtQ stB [[3, 4, 7], [9, 9, 9]] [true, false]
      0 10 1 3 4 [3, 4, 7] rfl rfl).2.2 rfl rfl rfl).1
  · exact ((Add_densification_stats_effect sqrtQ stB [[3, 4, 7], [9, 9, 9]] [true, false]
      0 10 1 3 4 [3, 4, 7] rfl rfl).2.2 rfl rfl rfl).2
  · exact ((Add_densification_stats_effect sqrtQ stB [[3, 4, 7], [9, 9, 9]] [true, false]
      1 20 2 3 4 [3, 4, 7] rfl rfl).2.1 rfl).1
  · exact ((Add_densification_stats_effect sqrtQ stB [[3, 4, 7], [9, 9, 9]] [true, false]
      1 20 2 3 4 [3, 4, 7] rfl rfl).2.1 rfl).2

/-- C8: confirmed.  `Save_as_ply` fails with the explicit "Not implemented"
error for every model state and every filename; it never returns `Except.ok`,
so no post-call state exists and the primitive set cannot have been changed. -/
theorem Save_as_ply_always_errors (st : GModel) (filename : String) :
    Save_as_ply st filename = Except.error "Not implemented" := rfl

/-- C9: confirmed.  If any optimizer group holds a number of parameter tensors
different from one, or has an undefined parameter gradient, `Reset_opacity`
throws (returns `Except.error`); since the validation loop runs before any
mutation, an error result carries no new state and the caller's model —
opacity buffer and opacity Adam state included — is exactly as before. -/
theorem Reset_opacity_invalid_group_errors (expF logF : ℚ → ℚ) (st : GModel)
    (h : ∃ g ∈ st.groups, g.params.length ≠ 1 ∨ g.gradDefined = false) :
    ∃ msg, Reset_opacity expF logF st = Except.error msg := by
  obtain ⟨msg, hm⟩ := findResetError_of_invalid h
  refine ⟨msg, ?_⟩
  unfold Reset_opacity
  rw [hm]

/-- Witness for C9 at a concrete input: a model whose rotation group's
parameter has no defined gradient. -/
theorem Reset_opacity_invalid_group_errors_witness :
    ∃ msg, Reset_opacity expQ logQ stBad = Except.error msg :=
  Reset_opacity_invalid_group_errors expQ logQ stBad (by decide)

/-- C10: confirmed.  In `densify_and_split`, every primitive index at or
beyond the incoming gradient vector's length reads `0` from the zero-padded
gradient (`padded_grad`), so the selection mask can be true there only when
`grad_threshold ≤ 0`.  In particular the primitives appended by
`densify_and_clone` earlier in the same `Densify_and_prune` cycle lie beyond
`grads.length` and are split only under a non-positive threshold. -/
theorem split_padded_gradient_zero (expF : ℚ → ℚ) (st : GModel) (grads : List ℚ)
    (grad_threshold scene_extent : ℚ) (i : ℕ)
    (h1 : grads.length ≤ i) (h2 : i < st.xyz.length) :
    (paddedGrad grads st.xyz.length).get? i = some 0 ∧
    ((splitSelectedMask expF st grads grad_threshold scene_extent).getD i false = true →
      grad_threshold ≤ 0) := by
  have hpad : (paddedGrad grads st.xyz.length).get? i = some 0 := by
    unfold paddedGrad
    rw [List.get?_map, List.get?_range h2, Option.map_some']
    rw [List.getD_eq_default _ _ h1]
  refine ⟨hpad, ?_⟩
  intro hm
  rw [List.getD_eq_getD_get?] at hm
  obtain ⟨mv, hq, hmvtrue⟩ : ∃ mv,
      (splitSelectedMask expF st grads grad_threshold scene_extent).get? i = some mv ∧
      mv = true := by
    cases hq : (splitSelectedMask expF st grads grad_threshold scene_extent).get? i with
    | none => rw [hq] at hm; simp at hm
    | some mv => rw [hq] at hm; exact ⟨mv, rfl, by simpa using hm⟩
  unfold splitSelectedMask at hq
  obtain ⟨g, srow, hg, _, hmv⟩ := get?_zipWith_some hq
  have hg0 : g = 0 := Option.some.inj (hg.symm.trans hpad)
  rw [hmvtrue] at hmv
  have hth : grad_threshold ≤ g := by
    have h' := hmv.symm
    simp only [Bool.and_eq_true, decide_eq_true_eq] at h'
    exact h'.1
  rw [hg0] at hth
  exact hth

/-- Witness for C10 at a concrete input: a three-primitive model with a
length-1 gradient vector and threshold 3; index 1 lies beyond the vector. -/
theorem split_padded_gradient_zero_witness :
    (paddedGrad [5] stA.xyz.length).get? 1 = some 0 ∧
    ((splitSelectedMask expQ stA [5] 3 1).getD 1 false = true → (3 : ℚ) ≤ 0) :=
  split_padded_gradient_zero expQ stA [5] 3 1 1 (by decide) (by decide)
